import Mathlib

/-!
Verification of the slash-command authorization and routing pipeline
(`src/slack/monitor/slash.ts`, `handleSlashCommand`).

The handler is embedded as a pure function from the inbound command, the
monitor context configuration, and an oracle recording the results of the
external collaborators (channel-name resolution, allow-list store,
user-name resolution, pairing upsert, reply dispatch) to the ordered list
of observable effects the handler performs (acknowledgments, ephemeral
responses, collaborator calls, dispatch, the empty-result delivery, and the
top-level error log).  A collaborator whose call can throw is given an
`Except Unit` result in the oracle; an `.error` result aborts the body at
the point of the call, which the top-level catch turns into a log plus a
generic ephemeral failure response.

`resolveSlackChannelConfig`, the allow-list helpers, the room policy gate
and the pairing-reply builder live in repository files that are not among
the sources; they are modelled from the spec (each such definition says so
in its doc comment).  Everything else is translated directly from
`slash.ts`.
-/

namespace OpenClaw

/-- Whitespace as JavaScript's `trim` sees it, restricted to the common
ASCII whitespace characters. -/
def isWsChar (c : Char) : Bool := c = ' ' ∨ c = '\t' ∨ c = '\n' ∨ c = '\r'

/-- Executable model of JavaScript's `String.prototype.trim`. -/
def strTrim (s : String) : String :=
  ⟨((s.data.dropWhile isWsChar).reverse.dropWhile isWsChar).reverse⟩

/-- Executable model of JavaScript's `String.prototype.toLowerCase`. -/
def strToLower (s : String) : String := ⟨s.data.map Char.toLower⟩

/-- Result of `ctx.resolveChannelName(channelId)` (spec §6):
`{ name?, type?, topic?, purpose? } | null`; the `null` case is the `none`
of the surrounding `Option ChannelInfo`. -/
structure ChannelInfo where
  name : Option String := none
  type : Option String := none
  topic : Option String := none
  purpose : Option String := none
deriving Repr, DecidableEq

/-- One entry of the per-channel configuration mapping (spec §3
`ChannelConfig`): every field optional. -/
structure SlackChannelEntry where
  requireMention : Option Bool := none
  allowed : Option Bool := none
  users : Option (List String) := none
  systemPrompt : Option String := none
  skills : Option (List String) := none
deriving Repr, DecidableEq

/-- `SlackChannelConfigResolved` (spec §3 `ResolvedChannelConfig`). -/
structure SlackChannelConfigResolved where
  allowed : Bool
  requireMention : Bool
  users : Option (List String) := none
  systemPrompt : Option String := none
  skills : Option (List String) := none
deriving Repr, DecidableEq

/-- The named-parameter object of `resolveSlackChannelConfig`, as built at
`slash.ts` lines 135-140.  The channels mapping is an association list
(object keys in source order). -/
structure ResolveChannelConfigParams where
  channelId : String
  channelName : Option String := none
  channels : Option (List (String × SlackChannelEntry)) := none
  defaultRequireMention : Option Bool := none
deriving Repr

/-- Modelled from the spec: `channel-config.ts` is not among the sources
(only its test file and its caller are).  Spec §4.1: lookup order is the
exact `channelId` key, then the exact `channelName` key, then the wildcard
key, then none. -/
def lookupChannelEntry (p : ResolveChannelConfigParams) : Option SlackChannelEntry :=
  let m := p.channels.getD []
  match m.lookup p.channelId with
  | some e => some e
  | none =>
    match p.channelName.bind (fun n => m.lookup n) with
    | some e => some e
    | none => m.lookup "*"

/-- Modelled from the spec: `channel-config.ts` is not among the sources.
Spec §4.1: `requireMention` is the matched entry's explicit value, else
`defaultRequireMention`, else `true`; `allowed` is `true` unless the
matched entry says `false`; `users`, `systemPrompt` and `skills` are taken
from the matched entry (absent when no entry matches), matching the shapes
the test file `channel-config.test.ts` expects. -/
def resolveSlackChannelConfig (p : ResolveChannelConfigParams) : SlackChannelConfigResolved :=
  match lookupChannelEntry p with
  | some e =>
    { allowed := e.allowed.getD true
      requireMention := e.requireMention.getD (p.defaultRequireMention.getD true)
      users := e.users
      systemPrompt := e.systemPrompt
      skills := e.skills }
  | none =>
    { allowed := true
      requireMention := p.defaultRequireMention.getD true
      users := none
      systemPrompt := none
      skills := none }

/-- Modelled from the spec: `allow-list.ts` is not among the sources.
Normalization of a raw allow-list: entries trimmed, empties dropped
(spec §3, §4.2 "Normalizes allowList once"). -/
def normalizeAllowList (xs : List String) : List String :=
  (xs.map strTrim).filter (fun s => s != "")

/-- Modelled from the spec: `allow-list.ts` is not among the sources.
The lower-cased view of an allow-list used for name comparison
(spec §4.2: identifiers preserved in the raw list, names compared
lower-cased; `slash.ts` line 85 builds this lower-cased copy). -/
def normalizeAllowListLower (xs : List String) : List String :=
  xs.map strToLower

/-- The named-parameter object of `allowListMatches` (`slash.ts`
lines 100-104). -/
structure AllowListQuery where
  allowList : List String
  id : String
  name : Option String := none

/-- Modelled from the spec: `allow-list.ts` is not among the sources.
Spec §4.2: a wildcard entry matches unconditionally; otherwise membership
of the id or of the lower-cased name; an empty or absent list matches
nothing. -/
def allowListMatches (q : AllowListQuery) : Bool :=
  q.allowList.contains "*" || q.allowList.contains q.id ||
    (match q.name with
     | some n => q.allowList.contains (strToLower n)
     | none => false)

/-- The named-parameter object of `resolveSlackUserAllowed` (`slash.ts`
lines 172-176). -/
structure UserAllowedQuery where
  allowList : Option (List String) := none
  userId : String
  userName : Option String := none

/-- Modelled from the spec: `allow-list.ts` is not among the sources.
Spec §4.5 step 6 with §4.2: an absent `users` list means no per-user
restriction is configured (handled upstream of the matcher, hence
allowed); a configured list is normalized and matched. -/
def resolveSlackUserAllowed (q : UserAllowedQuery) : Bool :=
  match q.allowList with
  | none => true
  | some xs =>
    allowListMatches
      { allowList := normalizeAllowListLower (normalizeAllowList xs)
        id := q.userId
        name := q.userName }

/-- The named-parameter object of `isSlackRoomAllowedByPolicy` (`slash.ts`
lines 146-150). -/
structure RoomPolicyQuery where
  groupPolicy : String
  channelAllowlistConfigured : Bool
  channelAllowed : Bool

/-- Modelled from the spec: `policy.ts` is not among the sources.
Spec §4.4: with no channel allow-list configured, the group policy alone
decides (a permissive policy, modelled as the "open" policy string, allows
any channel); with an allow-list configured the channel must additionally
be allowed in it. -/
def isSlackRoomAllowedByPolicy (q : RoomPolicyQuery) : Bool :=
  let policyPermits := q.groupPolicy == "open"
  if q.channelAllowlistConfigured then policyPermits && q.channelAllowed
  else policyPermits

/-- Modelled from the spec: `pairing-messages.ts` is not among the sources.
The pairing-instructions text carries the id line and the short code
(spec §4.3); its exact wording is irrelevant to the pipeline. -/
def buildPairingReply (idLine : String) (code : String) : String :=
  "Pairing required. " ++ idLine ++ " Approve with code: " ++ code

/-- The fields of the inbound platform command consumed by the handler. -/
structure Command where
  user_id : String
  channel_id : String
  channel_name : String := ""
  user_name : Option String := none
  trigger_id : String := "trigger"
deriving Repr, DecidableEq

/-- The monitor-context configuration the handler reads (`ctx.*` plus the
resolved agent route and slash-command config, which are deterministic in
the configuration). -/
structure Ctx where
  botUserId : Option String := none
  allowFrom : List String := []
  dmEnabled : Bool := true
  dmPolicy : String := "open"
  channelsConfig : Option (List (String × SlackChannelEntry)) := none
  defaultRequireMention : Option Bool := none
  useAccessGroups : Bool := false
  groupPolicy : String := "open"
  routeAgentId : String := "main"
  routeSessionKey : String := "session"
  routeAccountId : String := "default"
  sessionPref : String := "slash"
deriving Repr

/-- Results of the external collaborator calls for one invocation.  A call
the source awaits (and which can therefore reject) carries `Except Unit`;
`.error` means that call throws when reached. -/
structure Oracles where
  channelInfo : Except Unit (Option ChannelInfo) := .ok none
  channelAllowedResult : Bool := true
  storeRead : Except Unit (List String) := .ok []
  dmSenderName : Except Unit (Option String) := .ok none
  senderName2 : Except Unit (Option String) := .ok none
  pairing : Except Unit (String × Bool) := .ok ("code", true)
  dispatchCounts : Except Unit (Nat × Nat × Nat) := .ok (1, 0, 0)
  now : Nat := 0
deriving Repr

/-- The outbound context payload (`slash.ts` lines 212-237).  The constant
string fields `Provider`, `Surface`, `CommandSource` and
`OriginatingChannel` are included verbatim. -/
structure CtxPayload where
  Body : String
  From : String
  To : String
  ChatType : String
  GroupSubject : Option String
  GroupSystemPrompt : Option String
  SenderName : String
  SenderId : String
  Provider : String
  Surface : String
  WasMentioned : Bool
  MessageSid : String
  Timestamp : Nat
  SessionKey : String
  CommandTargetSessionKey : String
  AccountId : String
  CommandSource : String
  CommandAuthorized : Bool
  OriginatingChannel : String
  OriginatingTo : String
deriving Repr, DecidableEq

/-- One observable effect of the handler, in execution order.  Every
`respond` is ephemeral in the source, so the effect records only the
text. -/
inductive Effect where
  | ackMessage (text : String)
  | ackPlain
  | resolveChannelName (channelId : String)
  | respond (text : String)
  | readStore
  | resolveUserName (userId : String)
  | upsertPairing (userId : String)
  | dispatch (payload : CtxPayload) (skillFilter : Option (List String))
  | deliverEmpty
  | logError
deriving Repr, DecidableEq

/-- Whether an effect is the dispatch call. -/
def Effect.isDispatch : Effect → Bool
  | .dispatch _ _ => true
  | _ => false

/-- Whether an effect acknowledges the inbound command (either form of
`ack`). -/
def Effect.isAck : Effect → Bool
  | .ackMessage _ => true
  | .ackPlain => true
  | _ => false

/-- `slash.ts` line 60: the self-message guard. -/
def isSelfMessage (ctx : Ctx) (cmd : Command) : Bool :=
  match ctx.botUserId with
  | some b => cmd.user_id == b
  | none => false

/-- `slash.ts` lines 63-64: `channelInfo?.type ?? (channel_name ===
"directmessage" ? "im" : undefined)`. -/
def resolveChannelType (cmd : Command) (channelInfo : Option ChannelInfo) : Option String :=
  match channelInfo.bind (fun i => i.type) with
  | some t => some t
  | none => if cmd.channel_name = "directmessage" then some "im" else none

/-- The store read result after the `.catch(() => [])` at `slash.ts`
line 83: a read failure degrades to the empty list. -/
def storeAllowOf (o : Oracles) : List String :=
  match o.storeRead with
  | .ok xs => xs
  | .error _ => []

/-- `slash.ts` lines 84-85: the effective lower-cased allow-list, the
union of the static configuration and the store. -/
def effectiveAllowLower (ctx : Ctx) (o : Oracles) : List String :=
  normalizeAllowListLower (normalizeAllowList (ctx.allowFrom ++ storeAllowOf o))

/-- Keep the first occurrence of each element (the
`list.indexOf(entry) === index` dedup at `slash.ts` line 203). -/
def dedupKeepFirst (xs : List String) : List String :=
  xs.foldl (fun acc s => if acc.contains s then acc else acc ++ [s]) []

/-- `slash.ts` lines 200-204: topic and purpose trimmed, empties dropped,
deduplicated, newline-joined. -/
def buildChannelDescription (channelInfo : Option ChannelInfo) : String :=
  let entries := [channelInfo.bind (fun i => i.topic), channelInfo.bind (fun i => i.purpose)]
  let trimmed := (entries.map (fun e => e.map strTrim)).filterMap id
  String.intercalate "\n" (dedupKeepFirst (trimmed.filter (fun s => s != "")))

/-- `slash.ts` lines 205-210: the group system prompt assembled from the
channel description and the resolved channel config's `systemPrompt`. -/
def buildGroupSystemPrompt (channelInfo : Option ChannelInfo)
    (channelConfig : Option SlackChannelConfigResolved) : Option String :=
  let channelDescription := buildChannelDescription channelInfo
  let part1 : Option String :=
    if channelDescription != "" then some ("Channel description: " ++ channelDescription)
    else none
  let part2 : Option String :=
    match channelConfig.bind (fun c => c.systemPrompt) with
    | some s => if strTrim s != "" then some (strTrim s) else none
    | none => none
  let parts := [part1, part2].filterMap id
  match parts with
  | [] => none
  | first :: rest => some (rest.foldl (fun acc s => acc ++ "\n\n" ++ s) first)

/-- `slash.ts` line 170: `sender?.name ?? command.user_name ??
command.user_id`. -/
def senderFallback (nameOpt : Option String) (cmd : Command) : String :=
  match nameOpt with
  | some n => n
  | none =>
    match cmd.user_name with
    | some u => u
    | none => cmd.user_id

/-- `slash.ts` lines 212-237: the outbound context payload.
`commandAuthorized` is the value of the mutable flag at dispatch time. -/
def mkPayload (ctx : Ctx) (cmd : Command) (prompt : String) (o : Oracles)
    (channelInfo : Option ChannelInfo) (channelConfig : Option SlackChannelConfigResolved)
    (senderName : String) (commandAuthorized : Bool) : CtxPayload :=
  let channelType := resolveChannelType cmd channelInfo
  let isDirectMessage := channelType = some "im"
  let isGroupDm := channelType = some "mpim"
  let isRoom := channelType = some "channel" ∨ channelType = some "group"
  let channelName := channelInfo.bind (fun i => i.name)
  let roomLabel := match channelName with
    | some n => "#" ++ n
    | none => "#" ++ cmd.channel_id
  let isRoomish := isRoom ∨ isGroupDm
  { Body := prompt
    From :=
      if isDirectMessage then "slack:" ++ cmd.user_id
      else if isRoom then "slack:channel:" ++ cmd.channel_id
      else "slack:group:" ++ cmd.channel_id
    To := "slash:" ++ cmd.user_id
    ChatType := if isDirectMessage then "direct" else if isRoom then "room" else "group"
    GroupSubject := if isRoomish then some roomLabel else none
    GroupSystemPrompt :=
      if isRoomish then buildGroupSystemPrompt channelInfo channelConfig else none
    SenderName := senderName
    SenderId := cmd.user_id
    Provider := "slack"
    Surface := "slack"
    WasMentioned := true
    MessageSid := cmd.trigger_id
    Timestamp := o.now
    SessionKey :=
      "agent:" ++ ctx.routeAgentId ++ ":" ++ ctx.sessionPref ++ ":" ++ cmd.user_id
    CommandTargetSessionKey := ctx.routeSessionKey
    AccountId := ctx.routeAccountId
    CommandSource := "native"
    CommandAuthorized := commandAuthorized
    OriginatingChannel := "slack"
    OriginatingTo := "user:" ++ cmd.user_id }

/-- `slash.ts` lines 239-265: the dispatch call and, on zero replies of
every kind, the explicit empty-result delivery. -/
def dispatchStage (ctx : Ctx) (cmd : Command) (prompt : String) (o : Oracles)
    (channelInfo : Option ChannelInfo) (channelConfig : Option SlackChannelConfigResolved)
    (senderName : String) (commandAuthorized : Bool) (t : List Effect) :
    Except (List Effect) (List Effect) :=
  let payload := mkPayload ctx cmd prompt o channelInfo channelConfig senderName commandAuthorized
  let skillFilter := channelConfig.bind (fun c => c.skills)
  match o.dispatchCounts with
  | .error _ => .error (t ++ [.dispatch payload skillFilter])
  | .ok c =>
    let t := t ++ [Effect.dispatch payload skillFilter]
    if c.1 + c.2.1 + c.2.2 = 0 then .ok (t ++ [.deliverEmpty])
    else .ok t

/-- `slash.ts` lines 169-184: resolve the sender's display name and, in a
room, check the per-channel user allow-list. -/
def userStage (ctx : Ctx) (cmd : Command) (prompt : String) (o : Oracles)
    (channelInfo : Option ChannelInfo) (channelConfig : Option SlackChannelConfigResolved)
    (commandAuthorized : Bool) (t : List Effect) : Except (List Effect) (List Effect) :=
  let channelType := resolveChannelType cmd channelInfo
  let isRoom := channelType = some "channel" ∨ channelType = some "group"
  match o.senderName2 with
  | .error _ => .error (t ++ [.resolveUserName cmd.user_id])
  | .ok senderNameOpt =>
    let t := t ++ [Effect.resolveUserName cmd.user_id]
    let senderName := senderFallback senderNameOpt cmd
    let channelUserAllowed :=
      if isRoom then
        resolveSlackUserAllowed
          { allowList := channelConfig.bind (fun c => c.users)
            userId := cmd.user_id
            userName := some senderName }
      else true
    if isRoom ∧ channelUserAllowed = false then
      .ok (t ++ [.respond "You are not authorized to use this command here."])
    else
      dispatchStage ctx cmd prompt o channelInfo channelConfig senderName commandAuthorized t

/-- `slash.ts` lines 134-167: the room branch — channel-config resolution
and, under access groups, the policy gate ANDed with the resolved
`allowed` flag, plus the source's second explicit `allowed === false`
check. -/
def roomStage (ctx : Ctx) (cmd : Command) (prompt : String) (o : Oracles)
    (channelInfo : Option ChannelInfo) (commandAuthorized : Bool) (t : List Effect) :
    Except (List Effect) (List Effect) :=
  let channelType := resolveChannelType cmd channelInfo
  let isRoom := channelType = some "channel" ∨ channelType = some "group"
  let channelConfig : Option SlackChannelConfigResolved :=
    if isRoom then
      some (resolveSlackChannelConfig
        { channelId := cmd.channel_id
          channelName := channelInfo.bind (fun i => i.name)
          channels := ctx.channelsConfig
          defaultRequireMention := ctx.defaultRequireMention })
    else none
  let channelAllowlistConfigured : Bool :=
    match ctx.channelsConfig with
    | some m => !m.isEmpty
    | none => false
  let channelAllowed : Bool :=
    match channelConfig with
    | some c => c.allowed
    | none => true
  if isRoom ∧ ctx.useAccessGroups = true ∧
      (isSlackRoomAllowedByPolicy
          { groupPolicy := ctx.groupPolicy
            channelAllowlistConfigured := channelAllowlistConfigured
            channelAllowed := channelAllowed } = false ∨
        channelAllowed = false) then
    .ok (t ++ [.respond "This channel is not allowed."])
  else if isRoom ∧ ctx.useAccessGroups = true ∧
      channelConfig.map (fun c => c.allowed) = some false then
    .ok (t ++ [.respond "This channel is not allowed."])
  else
    userStage ctx cmd prompt o channelInfo channelConfig commandAuthorized t

/-- `slash.ts` lines 89-132: the direct-message branch — DM policy, the
effective allow-list, the pairing flow. -/
def dmStage (ctx : Ctx) (cmd : Command) (prompt : String) (o : Oracles)
    (channelInfo : Option ChannelInfo) (t : List Effect) :
    Except (List Effect) (List Effect) :=
  let channelType := resolveChannelType cmd channelInfo
  if channelType = some "im" then
    if ctx.dmEnabled = false ∨ ctx.dmPolicy = "disabled" then
      .ok (t ++ [.respond "Slack DMs are disabled."])
    else if ctx.dmPolicy ≠ "open" then
      match o.dmSenderName with
      | .error _ => .error (t ++ [.resolveUserName cmd.user_id])
      | .ok senderNameOpt =>
        let t := t ++ [Effect.resolveUserName cmd.user_id]
        let permitted := allowListMatches
          { allowList := effectiveAllowLower ctx o
            id := cmd.user_id
            name := senderNameOpt }
        if permitted = false then
          if ctx.dmPolicy = "pairing" then
            match o.pairing with
            | .error _ => .error (t ++ [.upsertPairing cmd.user_id])
            | .ok pr =>
              let t := t ++ [Effect.upsertPairing cmd.user_id]
              if pr.2 then
                .ok (t ++ [.respond (buildPairingReply
                  ("Your Slack user id: " ++ cmd.user_id) pr.1)])
              else .ok t
          else
            .ok (t ++ [.respond "You are not authorized to use this command."])
        else
          -- line 130: `commandAuthorized = true`
          roomStage ctx cmd prompt o channelInfo true t
    else
      roomStage ctx cmd prompt o channelInfo true t
  else
    roomStage ctx cmd prompt o channelInfo true t

/-- `slash.ts` lines 60-265: the body of the try block after the plain
acknowledgment. -/
def afterAck (ctx : Ctx) (cmd : Command) (prompt : String) (o : Oracles) :
    Except (List Effect) (List Effect) :=
  if isSelfMessage ctx cmd then .ok []
  else
    match o.channelInfo with
    | .error _ => .error [.resolveChannelName cmd.channel_id]
    | .ok channelInfo =>
      let t := [Effect.resolveChannelName cmd.channel_id]
      if o.channelAllowedResult = false then
        .ok (t ++ [.respond "This channel is not allowed."])
      else
        dmStage ctx cmd prompt o channelInfo (t ++ [Effect.readStore])

/-- `slash.ts` lines 51-265: the try block — the empty-prompt rejection,
the plain acknowledgment, then the body. -/
def runBody (ctx : Ctx) (cmd : Command) (prompt : String) (o : Oracles) :
    Except (List Effect) (List Effect) :=
  if strTrim prompt = "" then .ok [.ackMessage "Message required."]
  else
    match afterAck ctx cmd prompt o with
    | .ok t => .ok (Effect.ackPlain :: t)
    | .error t => .error (Effect.ackPlain :: t)

/-- The generic failure text of the top-level catch (`slash.ts`
line 269). -/
def fatalText : String := "Sorry, something went wrong handling that command."

/-- `slash.ts` lines 50-272: the whole handler — the try block, and the
top-level catch that logs and answers with the generic ephemeral failure
message. -/
def handleSlashCommand (ctx : Ctx) (cmd : Command) (prompt : String) (o : Oracles) :
    List Effect :=
  match runBody ctx cmd prompt o with
  | .ok t => t
  | .error t => t ++ [Effect.logError, Effect.respond fatalText]

/-- The trace carried by either side of an `Except` result of the body. -/
def exTrace : Except (List Effect) (List Effect) → List Effect
  | .ok t => t
  | .error t => t

/-- Invariant of every trace the try-block body can produce: the body never
logs (only the top-level catch does), and any dispatch effect in it carries
`CommandAuthorized = true` and, when the dispatcher reported zero replies of
every kind, is followed by the explicit empty-result delivery. -/
def bodyInv (o : Oracles) (tr : List Effect) : Prop :=
  Effect.logError ∉ tr ∧
  ∀ p sk, Effect.dispatch p sk ∈ tr →
    p.CommandAuthorized = true ∧
    ∀ f tl b, o.dispatchCounts = .ok (f, tl, b) → f + tl + b = 0 →
      Effect.deliverEmpty ∈ tr

/-! Concrete sample inputs used by the witness theorems. -/

/-- A sample inbound command. -/
def wCmd : Command := { user_id := "U1", channel_id := "C1" }

/-- A sample room channel-info result. -/
def wInfoRoom : ChannelInfo := { type := some "channel" }

/-- A sample direct-message channel-info result. -/
def wInfoIm : ChannelInfo := { type := some "im" }

/-- A sample group-DM channel-info result. -/
def wInfoMpim : ChannelInfo := { type := some "mpim" }

/-- A context with access groups on and the sample channel configured with
`allowed = false`. -/
def wCtxRoom : Ctx :=
  { useAccessGroups := true, channelsConfig := some [("C1", { allowed := some false })] }

/-- A context whose DM policy is "pairing". -/
def wCtxPair : Ctx := { dmPolicy := "pairing" }

/-- Oracles resolving the sample channel as a room. -/
def wORoom : Oracles := { channelInfo := .ok (some wInfoRoom) }

/-- Oracles resolving the sample channel as a DM, with a pairing upsert that
created a new request. -/
def wOPair : Oracles := { channelInfo := .ok (some wInfoIm), pairing := .ok ("K7", true) }

/-- Oracles for a DM whose dispatch produced zero replies of every kind. -/
def wOEmpty : Oracles := { channelInfo := .ok (some wInfoIm), dispatchCounts := .ok (0, 0, 0) }

/-- Oracles for a DM whose dispatch produced one final reply. -/
def wODisp : Oracles := { channelInfo := .ok (some wInfoIm) }

/-- Oracles whose channel-name resolution throws. -/
def wOThrow : Oracles := { channelInfo := .error () }

/-- Oracles resolving the sample channel as a group DM. -/
def wOMpim : Oracles :=
  { channelInfo := .ok (some wInfoMpim), dispatchCounts := .ok (1, 0, 0) }

/-! ## Invariant machinery for the trace of the try-block body -/

lemma mkPayload_auth (ctx : Ctx) (cmd : Command) (prompt : String) (o : Oracles)
    (ci : Option ChannelInfo) (cc : Option SlackChannelConfigResolved)
    (sn : String) (ca : Bool) :
    (mkPayload ctx cmd prompt o ci cc sn ca).CommandAuthorized = ca := rfl

lemma bodyInv_dispatchStage (ctx : Ctx) (cmd : Command) (prompt : String) (o : Oracles)
    (ci : Option ChannelInfo) (cc : Option SlackChannelConfigResolved)
    (sn : String) (t : List Effect) (h : bodyInv o t) :
    bodyInv o (exTrace (dispatchStage ctx cmd prompt o ci cc sn true t)) := by
  obtain ⟨hlog, hdisp⟩ := h
  unfold dispatchStage
  cases hdc : o.dispatchCounts with
  | error e =>
    refine ⟨by simp [exTrace, hlog], fun p sk hmem => ?_⟩
    simp only [exTrace, List.mem_append, List.mem_singleton] at hmem
    rcases hmem with hmem | hmem
    · obtain ⟨ha, hrest⟩ := hdisp p sk hmem
      exact ⟨ha, fun f tl b hok => by rw [hdc] at hok; cases hok⟩
    · cases hmem
      exact ⟨rfl, fun f tl b hok => by rw [hdc] at hok; cases hok⟩
  | ok c =>
    dsimp only
    by_cases hz : c.1 + c.2.1 + c.2.2 = 0
    · rw [if_pos hz]
      refine ⟨by simp [exTrace, hlog], fun p sk hmem => ?_⟩
      refine ⟨?_, fun f tl b hok hzz => by simp [exTrace]⟩
      simp only [exTrace, List.mem_append, List.mem_singleton] at hmem
      rcases hmem with (hmem | hmem) | hmem
      · exact (hdisp p sk hmem).1
      · cases hmem; rfl
      · cases hmem
    · rw [if_neg hz]
      refine ⟨by simp [exTrace, hlog], fun p sk hmem => ?_⟩
      simp only [exTrace, List.mem_append, List.mem_singleton] at hmem
      refine ⟨?_, fun f tl b hok hzz => ?_⟩
      · rcases hmem with hmem | hmem
        · exact (hdisp p sk hmem).1
        · cases hmem; rfl
      · rw [hdc] at hok
        cases hok
        exact absurd hzz hz

lemma bodyInv_append_simple (o : Oracles) (t s : List Effect) (h : bodyInv o t)
    (hs : ∀ e ∈ s, e.isDispatch = false ∧ e ≠ Effect.logError) :
    bodyInv o (t ++ s) := by
  obtain ⟨hlog, hdisp⟩ := h
  constructor
  · intro hmem
    rcases List.mem_append.mp hmem with hmem | hmem
    · exact hlog hmem
    · exact (hs _ hmem).2 rfl
  · intro p sk hmem
    rcases List.mem_append.mp hmem with hmem | hmem
    · obtain ⟨ha, hrest⟩ := hdisp p sk hmem
      exact ⟨ha, fun f tl b hok hz =>
        List.mem_append.mpr (Or.inl (hrest f tl b hok hz))⟩
    · exact absurd (hs _ hmem).1 (by simp [Effect.isDispatch])

lemma bodyInv_snoc (o : Oracles) (t : List Effect) (e : Effect) (h : bodyInv o t)
    (h1 : e.isDispatch = false) (h2 : e ≠ Effect.logError) :
    bodyInv o (t ++ [e]) :=
  bodyInv_append_simple o t [e] h (by simp [h1, h2])

lemma bodyInv_userStage (ctx : Ctx) (cmd : Command) (prompt : String) (o : Oracles)
    (ci : Option ChannelInfo) (cc : Option SlackChannelConfigResolved)
    (t : List Effect) (h : bodyInv o t) :
    bodyInv o (exTrace (userStage ctx cmd prompt o ci cc true t)) := by
  have h1 : bodyInv o (t ++ [Effect.resolveUserName cmd.user_id]) :=
    bodyInv_snoc o t _ h rfl (by simp)
  unfold userStage
  cases hsn : o.senderName2 with
  | error e =>
    simp only [exTrace]
    exact h1
  | ok nm =>
    dsimp only
    split <;> split
    all_goals try simp only [exTrace]
    all_goals first
      | exact bodyInv_snoc o _ _ h1 rfl (by simp)
      | exact bodyInv_dispatchStage ctx cmd prompt o ci cc _ _ h1

lemma bodyInv_roomStage (ctx : Ctx) (cmd : Command) (prompt : String) (o : Oracles)
    (ci : Option ChannelInfo) (t : List Effect) (h : bodyInv o t) :
    bodyInv o (exTrace (roomStage ctx cmd prompt o ci true t)) := by
  unfold roomStage
  dsimp only
  split <;> split
  all_goals try split
  all_goals try simp only [exTrace]
  all_goals first
    | exact bodyInv_snoc o t _ h rfl (by simp)
    | exact bodyInv_userStage ctx cmd prompt o ci _ t h

lemma bodyInv_dmStage (ctx : Ctx) (cmd : Command) (prompt : String) (o : Oracles)
    (ci : Option ChannelInfo) (t : List Effect) (h : bodyInv o t) :
    bodyInv o (exTrace (dmStage ctx cmd prompt o ci t)) := by
  have h1 : bodyInv o (t ++ [Effect.resolveUserName cmd.user_id]) :=
    bodyInv_snoc o t _ h rfl (by simp)
  have h2 : bodyInv o (t ++ [Effect.resolveUserName cmd.user_id] ++
      [Effect.upsertPairing cmd.user_id]) :=
    bodyInv_snoc o _ _ h1 rfl (by simp)
  unfold dmStage
  dsimp only
  split
  · split
    · simp only [exTrace]
      exact bodyInv_snoc o t _ h rfl (by simp)
    · split
      · cases hsn : o.dmSenderName with
        | error e =>
          simp only [exTrace]
          exact h1
        | ok nm =>
          dsimp only
          split
          · split
            · cases hpr : o.pairing with
              | error e =>
                simp only [exTrace]
                exact h2
              | ok pr =>
                dsimp only
                split
                · simp only [exTrace]
                  exact bodyInv_snoc o _ _ h2 rfl (by simp)
                · simp only [exTrace]
                  exact h2
            · simp only [exTrace]
              exact bodyInv_snoc o _ _ h1 rfl (by simp)
          · exact bodyInv_roomStage ctx cmd prompt o ci _ h1
      · exact bodyInv_roomStage ctx cmd prompt o ci t h
  · exact bodyInv_roomStage ctx cmd prompt o ci t h

lemma bodyInv_afterAck (ctx : Ctx) (cmd : Command) (prompt : String) (o : Oracles) :
    bodyInv o (exTrace (afterAck ctx cmd prompt o)) := by
  have hnil : bodyInv o [] := ⟨by simp, by simp⟩
  have h1 : bodyInv o [Effect.resolveChannelName cmd.channel_id] := by
    have := bodyInv_snoc o [] (Effect.resolveChannelName cmd.channel_id) hnil rfl (by simp)
    simpa using this
  unfold afterAck
  split
  · simp only [exTrace]
    exact hnil
  · cases hci : o.channelInfo with
    | error e =>
      simp only [exTrace]
      exact h1
    | ok ci =>
      dsimp only
      split
      · simp only [exTrace]
        exact bodyInv_snoc o _ _ h1 rfl (by simp)
      · exact bodyInv_dmStage ctx cmd prompt o ci _ (bodyInv_snoc o _ _ h1 rfl (by simp))

lemma bodyInv_cons (o : Oracles) (e : Effect) (t : List Effect) (h : bodyInv o t)
    (h1 : e.isDispatch = false) (h2 : e ≠ Effect.logError) :
    bodyInv o (e :: t) := by
  obtain ⟨hlog, hdisp⟩ := h
  constructor
  · intro hmem
    rcases List.mem_cons.mp hmem with hmem | hmem
    · exact h2 hmem.symm
    · exact hlog hmem
  · intro p sk hmem
    rcases List.mem_cons.mp hmem with hmem | hmem
    · rw [← hmem] at h1
      simp [Effect.isDispatch] at h1
    · obtain ⟨ha, hrest⟩ := hdisp p sk hmem
      exact ⟨ha, fun f tl b hok hz => List.mem_cons_of_mem e (hrest f tl b hok hz)⟩

lemma runBody_trace_inv (ctx : Ctx) (cmd : Command) (prompt : String) (o : Oracles) :
    bodyInv o (exTrace (runBody ctx cmd prompt o)) := by
  unfold runBody
  split
  · exact ⟨by simp [exTrace], by simp [exTrace]⟩
  · have hA := bodyInv_afterAck ctx cmd prompt o
    cases h : afterAck ctx cmd prompt o with
    | ok t =>
      rw [h] at hA
      simp only [exTrace] at hA ⊢
      exact bodyInv_cons o _ t hA rfl (by simp)
    | error t =>
      rw [h] at hA
      simp only [exTrace] at hA ⊢
      exact bodyInv_cons o _ t hA rfl (by simp)

lemma handle_ok (ctx : Ctx) (cmd : Command) (prompt : String) (o : Oracles)
    (t : List Effect) (h : runBody ctx cmd prompt o = .ok t) :
    handleSlashCommand ctx cmd prompt o = t := by
  unfold handleSlashCommand
  rw [h]

lemma handle_error (ctx : Ctx) (cmd : Command) (prompt : String) (o : Oracles)
    (t : List Effect) (h : runBody ctx cmd prompt o = .error t) :
    handleSlashCommand ctx cmd prompt o =
      t ++ [Effect.logError, Effect.respond fatalText] := by
  unfold handleSlashCommand
  rw [h]

/-! ## The claims -/

/-- C1: for a room-type command (channel or group) with access groups
enabled, a resolved channel config whose `allowed` flag is `false` makes the
pipeline reject with the "not allowed" ephemeral message and never dispatch,
regardless of what the access-group policy alone would decide: the resolved
`allowed` flag is combined with the policy gate by logical AND. -/
theorem roomAllowedFalse_rejected (ctx : Ctx) (cmd : Command) (prompt : String)
    (o : Oracles) (info : ChannelInfo)
    (hprompt : strTrim prompt ≠ "")
    (hself : isSelfMessage ctx cmd = false)
    (hinfo : o.channelInfo = .ok (some info))
    (htype : info.type = some "channel" ∨ info.type = some "group")
    (hch : o.channelAllowedResult = true)
    (hag : ctx.useAccessGroups = true)
    (hallowed : (resolveSlackChannelConfig
        { channelId := cmd.channel_id
          channelName := info.name
          channels := ctx.channelsConfig
          defaultRequireMention := ctx.defaultRequireMention }).allowed = false) :
    handleSlashCommand ctx cmd prompt o =
      [Effect.ackPlain, Effect.resolveChannelName cmd.channel_id, Effect.readStore,
        Effect.respond "This channel is not allowed."] ∧
    ∀ p sk, Effect.dispatch p sk ∉ handleSlashCommand ctx cmd prompt o := by
  have he : handleSlashCommand ctx cmd prompt o =
      [Effect.ackPlain, Effect.resolveChannelName cmd.channel_id, Effect.readStore,
        Effect.respond "This channel is not allowed."] := by
    unfold handleSlashCommand runBody afterAck dmStage roomStage
    rw [if_neg hprompt]
    rcases htype with ht | ht <;>
      simp [hself, hinfo, hch, hag, resolveChannelType, ht, hallowed]
  refine ⟨he, fun p sk => ?_⟩
  rw [he]
  simp

theorem roomAllowedFalse_rejected_witness :
    handleSlashCommand wCtxRoom wCmd "hi" wORoom =
      [Effect.ackPlain, Effect.resolveChannelName wCmd.channel_id, Effect.readStore,
        Effect.respond "This channel is not allowed."] ∧
    ∀ p sk, Effect.dispatch p sk ∉ handleSlashCommand wCtxRoom wCmd "hi" wORoom :=
  roomAllowedFalse_rejected wCtxRoom wCmd "hi" wORoom wInfoRoom (by decide) rfl rfl
    (Or.inl rfl) rfl rfl (by decide)

/-- C2: an inbound command whose prompt is empty or whitespace-only is rejected
immediately with the ephemeral "Message required." acknowledgment; the dispatch
collaborator is never invoked and the plain acknowledgment used for real
invocations never happens. -/
theorem emptyPrompt_rejected (ctx : Ctx) (cmd : Command) (prompt : String) (o : Oracles)
    (h : strTrim prompt = "") :
    handleSlashCommand ctx cmd prompt o = [Effect.ackMessage "Message required."] ∧
    (∀ p sk, Effect.dispatch p sk ∉ handleSlashCommand ctx cmd prompt o) ∧
    Effect.ackPlain ∉ handleSlashCommand ctx cmd prompt o := by
  have he : handleSlashCommand ctx cmd prompt o = [Effect.ackMessage "Message required."] := by
    unfold handleSlashCommand runBody
    rw [if_pos h]
  refine ⟨he, fun p sk => ?_, ?_⟩ <;> rw [he] <;> simp

theorem emptyPrompt_rejected_witness :
    handleSlashCommand {} wCmd "  " {} = [Effect.ackMessage "Message required."] ∧
    (∀ p sk, Effect.dispatch p sk ∉ handleSlashCommand {} wCmd "  " {}) ∧
    Effect.ackPlain ∉ handleSlashCommand {} wCmd "  " {} :=
  emptyPrompt_rejected {} wCmd "  " {} (by decide)

/-- C3: for a non-empty prompt the plain acknowledgment is the first effect of
the handler, strictly before channel-name resolution, the allow-list store read
and dispatch. -/
theorem ack_precedes_work (ctx : Ctx) (cmd : Command) (prompt : String) (o : Oracles)
    (h : strTrim prompt ≠ "") :
    (handleSlashCommand ctx cmd prompt o).head? = some Effect.ackPlain ∧
    (∀ n e, (handleSlashCommand ctx cmd prompt o).get? n = some e →
      (e = Effect.resolveChannelName cmd.channel_id ∨ e = Effect.readStore ∨
        e.isDispatch = true) → 0 < n) := by
  obtain ⟨r, hr⟩ : ∃ r, handleSlashCommand ctx cmd prompt o = Effect.ackPlain :: r := by
    unfold handleSlashCommand runBody
    rw [if_neg h]
    cases hA : afterAck ctx cmd prompt o with
    | ok t => exact ⟨t, by simp⟩
    | error t => exact ⟨t ++ [Effect.logError, Effect.respond fatalText], by simp⟩
  rw [hr]
  refine ⟨rfl, fun n e hget hkind => ?_⟩
  cases n with
  | zero =>
    simp only [List.get?] at hget
    cases hget
    rcases hkind with h' | h' | h' <;> simp [Effect.isDispatch] at h'
  | succ m => exact Nat.succ_pos m

theorem ack_precedes_work_witness :
    (handleSlashCommand {} wCmd "hi" {}).head? = some Effect.ackPlain ∧
    (∀ n e, (handleSlashCommand {} wCmd "hi" {}).get? n = some e →
      (e = Effect.resolveChannelName wCmd.channel_id ∨ e = Effect.readStore ∨
        e.isDispatch = true) → 0 < n) :=
  ack_precedes_work {} wCmd "hi" {} (by decide)

/-- C4: resolving the channel config when no entry matches (no exact id key, no
name key, no wildcard key) and `defaultRequireMention` is unset yields
`requireMention = true` and `allowed = true`. -/
theorem noMatch_resolvesOpen (p : ResolveChannelConfigParams)
    (h1 : (p.channels.getD []).lookup p.channelId = none)
    (h2 : p.channelName.bind (fun n => (p.channels.getD []).lookup n) = none)
    (h3 : (p.channels.getD []).lookup "*" = none)
    (hd : p.defaultRequireMention = none) :
    resolveSlackChannelConfig p =
      { allowed := true, requireMention := true, users := none,
        systemPrompt := none, skills := none } := by
  have hentry : lookupChannelEntry p = none := by
    simp only [lookupChannelEntry, h1, h2, h3]
  unfold resolveSlackChannelConfig
  rw [hentry, hd]
  rfl

theorem noMatch_resolvesOpen_witness :
    resolveSlackChannelConfig { channelId := "C1", channels := some [] } =
      { allowed := true, requireMention := true, users := none,
        systemPrompt := none, skills := none } :=
  noMatch_resolvesOpen { channelId := "C1", channels := some [] }
    (by decide) (by decide) (by decide) (by decide)

/-- C5: under dmPolicy "pairing", a DM from a sender not on the effective
allow-list runs the pairing upsert and replies with the pairing instructions
exactly when the upsert created a new request; on a repeat request the sender
gets no response at all, and dispatch is never reached. -/
theorem pairingDm_replyIffCreated (ctx : Ctx) (cmd : Command) (prompt : String)
    (o : Oracles) (info : ChannelInfo) (nm : Option String) (code : String) (created : Bool)
    (hprompt : strTrim prompt ≠ "")
    (hself : isSelfMessage ctx cmd = false)
    (hinfo : o.channelInfo = .ok (some info))
    (htype : info.type = some "im")
    (hch : o.channelAllowedResult = true)
    (hdm : ctx.dmEnabled = true)
    (hpolicy : ctx.dmPolicy = "pairing")
    (hname : o.dmSenderName = .ok nm)
    (hperm : allowListMatches
      { allowList := effectiveAllowLower ctx o, id := cmd.user_id, name := nm } = false)
    (hpair : o.pairing = .ok (code, created)) :
    handleSlashCommand ctx cmd prompt o =
      [Effect.ackPlain, Effect.resolveChannelName cmd.channel_id, Effect.readStore,
        Effect.resolveUserName cmd.user_id, Effect.upsertPairing cmd.user_id] ++
      (if created then
        [Effect.respond (buildPairingReply ("Your Slack user id: " ++ cmd.user_id) code)]
       else []) ∧
    (created = false → ∀ s, Effect.respond s ∉ handleSlashCommand ctx cmd prompt o) ∧
    (∀ p sk, Effect.dispatch p sk ∉ handleSlashCommand ctx cmd prompt o) := by
  have he : handleSlashCommand ctx cmd prompt o =
      [Effect.ackPlain, Effect.resolveChannelName cmd.channel_id, Effect.readStore,
        Effect.resolveUserName cmd.user_id, Effect.upsertPairing cmd.user_id] ++
      (if created then
        [Effect.respond (buildPairingReply ("Your Slack user id: " ++ cmd.user_id) code)]
       else []) := by
    unfold handleSlashCommand runBody afterAck dmStage
    rw [if_neg hprompt]
    cases created <;>
      simp [hself, hinfo, hch, hdm, hpolicy, hname, hperm, hpair, resolveChannelType, htype]
  refine ⟨he, fun hc s => ?_, fun p sk => ?_⟩ <;> rw [he]
  · subst hc
    simp
  · cases created <;> simp

theorem pairingDm_replyIffCreated_witness :
    handleSlashCommand wCtxPair wCmd "hi" wOPair =
      [Effect.ackPlain, Effect.resolveChannelName wCmd.channel_id, Effect.readStore,
        Effect.resolveUserName wCmd.user_id, Effect.upsertPairing wCmd.user_id] ++
      (if true then
        [Effect.respond (buildPairingReply ("Your Slack user id: " ++ wCmd.user_id) "K7")]
       else []) ∧
    (true = false → ∀ s, Effect.respond s ∉ handleSlashCommand wCtxPair wCmd "hi" wOPair) ∧
    (∀ p sk, Effect.dispatch p sk ∉ handleSlashCommand wCtxPair wCmd "hi" wOPair) :=
  pairingDm_replyIffCreated wCtxPair wCmd "hi" wOPair wInfoIm none "K7" true
    (by decide) rfl rfl rfl rfl rfl rfl rfl (by decide) rfl

/-- C6: a failed allow-list store read degrades to the empty list: the handler
behaves exactly as if the store had returned no entries, so the effective
allow-list is just the statically configured entries and the invocation
proceeds (the failure is neither fatal nor surfaced to the user). -/
theorem storeFailure_failsOpen (ctx : Ctx) (cmd : Command) (prompt : String) (o : Oracles) :
    handleSlashCommand ctx cmd prompt { o with storeRead := .error () } =
      handleSlashCommand ctx cmd prompt { o with storeRead := .ok [] } ∧
    effectiveAllowLower ctx { o with storeRead := .error () } =
      normalizeAllowListLower (normalizeAllowList ctx.allowFrom) := by
  constructor
  · rfl
  · simp [effectiveAllowLower, storeAllowOf, normalizeAllowList]

/-- C7: when a dispatched command's dispatcher reports zero replies across all
reply kinds (final, tool and block counts all zero), the pipeline sends the
explicit empty-result delivery instead of ending silently. -/
theorem zeroReplies_deliverEmpty (ctx : Ctx) (cmd : Command) (prompt : String)
    (o : Oracles) (p : CtxPayload) (sk : Option (List String)) (f tl b : Nat)
    (hc : o.dispatchCounts = .ok (f, tl, b)) (hz : f + tl + b = 0)
    (h : Effect.dispatch p sk ∈ handleSlashCommand ctx cmd prompt o) :
    Effect.deliverEmpty ∈ handleSlashCommand ctx cmd prompt o := by
  have hinv := runBody_trace_inv ctx cmd prompt o
  cases hr : runBody ctx cmd prompt o with
  | ok t =>
    simp only [hr, exTrace] at hinv
    rw [handle_ok ctx cmd prompt o t hr] at h ⊢
    exact (hinv.2 p sk h).2 f tl b hc hz
  | error t =>
    simp only [hr, exTrace] at hinv
    rw [handle_error ctx cmd prompt o t hr] at h ⊢
    rcases List.mem_append.mp h with hm | hm
    · exact List.mem_append.mpr (Or.inl ((hinv.2 p sk hm).2 f tl b hc hz))
    · simp at hm

theorem zeroReplies_deliverEmpty_witness :
    Effect.deliverEmpty ∈ handleSlashCommand {} wCmd "hi" wOEmpty :=
  zeroReplies_deliverEmpty {} wCmd "hi" wOEmpty
    (mkPayload {} wCmd "hi" wOEmpty (some wInfoIm) none (senderFallback none wCmd) true)
    none 0 0 0 rfl rfl (by decide)

/-- C8: an exception thrown anywhere inside the pipeline body is caught by the
single top-level catch: the handler's trace is the body's trace followed by
exactly one error log and the one generic ephemeral failure response, nothing
escapes the handler, and the command was still acknowledged first. -/
theorem fatal_caughtOnce (ctx : Ctx) (cmd : Command) (prompt : String)
    (o : Oracles) (t : List Effect)
    (h : runBody ctx cmd prompt o = .error t) :
    handleSlashCommand ctx cmd prompt o =
      t ++ [Effect.logError, Effect.respond fatalText] ∧
    (handleSlashCommand ctx cmd prompt o).count Effect.logError = 1 ∧
    (handleSlashCommand ctx cmd prompt o).head? = some Effect.ackPlain := by
  have he : handleSlashCommand ctx cmd prompt o =
      t ++ [Effect.logError, Effect.respond fatalText] := by
    unfold handleSlashCommand
    rw [h]
  have hinv := runBody_trace_inv ctx cmd prompt o
  rw [h] at hinv
  simp only [exTrace] at hinv
  have hcount : t.count Effect.logError = 0 := List.count_eq_zero.mpr hinv.1
  obtain ⟨r, hr⟩ : ∃ r, t = Effect.ackPlain :: r := by
    unfold runBody at h
    by_cases hp : strTrim prompt = ""
    · rw [if_pos hp] at h
      cases h
    · rw [if_neg hp] at h
      cases hA : afterAck ctx cmd prompt o with
      | ok s =>
        rw [hA] at h
        cases h
      | error s =>
        rw [hA] at h
        exact ⟨s, (Except.error.inj h).symm⟩
  refine ⟨he, ?_, ?_⟩
  · rw [he, List.count_append, hcount]
    rfl
  · rw [he, hr]
    rfl

theorem fatal_caughtOnce_witness :
    handleSlashCommand {} wCmd "hi" wOThrow =
      [Effect.ackPlain, Effect.resolveChannelName wCmd.channel_id] ++
        [Effect.logError, Effect.respond fatalText] ∧
    (handleSlashCommand {} wCmd "hi" wOThrow).count Effect.logError = 1 ∧
    (handleSlashCommand {} wCmd "hi" wOThrow).head? = some Effect.ackPlain :=
  fatal_caughtOnce {} wCmd "hi" wOThrow
    [Effect.ackPlain, Effect.resolveChannelName wCmd.channel_id] rfl

/-- C9: every context payload handed to the dispatch collaborator carries
`CommandAuthorized = true` — the flag is initialized `true` and only ever
reassigned `true`, on every path through the pipeline. -/
theorem dispatch_commandAuthorized (ctx : Ctx) (cmd : Command) (prompt : String)
    (o : Oracles) (p : CtxPayload) (sk : Option (List String))
    (h : Effect.dispatch p sk ∈ handleSlashCommand ctx cmd prompt o) :
    p.CommandAuthorized = true := by
  have hinv := runBody_trace_inv ctx cmd prompt o
  cases hr : runBody ctx cmd prompt o with
  | ok t =>
    simp only [hr, exTrace] at hinv
    rw [handle_ok ctx cmd prompt o t hr] at h
    exact (hinv.2 p sk h).1
  | error t =>
    simp only [hr, exTrace] at hinv
    rw [handle_error ctx cmd prompt o t hr] at h
    rcases List.mem_append.mp h with hm | hm
    · exact (hinv.2 p sk hm).1
    · simp at hm

theorem dispatch_commandAuthorized_witness :
    (mkPayload {} wCmd "hi" wODisp (some wInfoIm) none
      (senderFallback none wCmd) true).CommandAuthorized = true :=
  dispatch_commandAuthorized {} wCmd "hi" wODisp
    (mkPayload {} wCmd "hi" wODisp (some wInfoIm) none (senderFallback none wCmd) true)
    none (by decide)

/-- C10: in a group DM (mpim) neither the DM-policy branch, nor channel-config
resolution, nor the access-policy gate, nor the per-user allow-list check
applies: whatever the DM policy, channels config, access-group switch and
group policy are, the command goes straight to dispatch with no channel
config — the skill filter is `none` and the group system prompt carries only
the channel description, never a channel `systemPrompt`. -/
theorem groupDm_skipsChannelGates (ctx : Ctx) (cmd : Command) (prompt : String)
    (o : Oracles) (info : ChannelInfo) (nm2 : Option String) (f tl b : Nat)
    (hprompt : strTrim prompt ≠ "")
    (hself : isSelfMessage ctx cmd = false)
    (hinfo : o.channelInfo = .ok (some info))
    (htype : info.type = some "mpim")
    (hch : o.channelAllowedResult = true)
    (hname : o.senderName2 = .ok nm2)
    (hcounts : o.dispatchCounts = .ok (f, tl, b)) :
    handleSlashCommand ctx cmd prompt o =
      [Effect.ackPlain, Effect.resolveChannelName cmd.channel_id, Effect.readStore,
        Effect.resolveUserName cmd.user_id,
        Effect.dispatch (mkPayload ctx cmd prompt o (some info) none
          (senderFallback nm2 cmd) true) none] ++
      (if f + tl + b = 0 then [Effect.deliverEmpty] else []) ∧
    (mkPayload ctx cmd prompt o (some info) none (senderFallback nm2 cmd) true).GroupSystemPrompt =
      (if buildChannelDescription (some info) = "" then none
       else some ("Channel description: " ++ buildChannelDescription (some info))) := by
  constructor
  · unfold handleSlashCommand runBody afterAck dmStage roomStage userStage dispatchStage
    rw [if_neg hprompt]
    by_cases hz : f + tl + b = 0 <;>
      simp [hself, hinfo, hch, hname, hcounts, resolveChannelType, htype, hz]
  · unfold mkPayload buildGroupSystemPrompt
    by_cases hd : buildChannelDescription (some info) = "" <;>
      simp [resolveChannelType, htype, hd]

theorem groupDm_skipsChannelGates_witness :
    handleSlashCommand {} wCmd "hi" wOMpim =
      [Effect.ackPlain, Effect.resolveChannelName wCmd.channel_id, Effect.readStore,
        Effect.resolveUserName wCmd.user_id,
        Effect.dispatch (mkPayload {} wCmd "hi" wOMpim (some wInfoMpim) none
          (senderFallback none wCmd) true) none] ++
      (if 1 + 0 + 0 = 0 then [Effect.deliverEmpty] else []) ∧
    (mkPayload {} wCmd "hi" wOMpim (some wInfoMpim) none
      (senderFallback none wCmd) true).GroupSystemPrompt =
      (if buildChannelDescription (some wInfoMpim) = "" then none
       else some ("Channel description: " ++ buildChannelDescription (some wInfoMpim))) :=
  groupDm_skipsChannelGates {} wCmd "hi" wOMpim wInfoMpim none 1 0 0
    (by decide) rfl rfl rfl rfl rfl rfl

end OpenClaw
